import Mathlib

/-!
# Verification of the `useGroupData` store (`src/hooks/useGroupData.ts`)

A shallow embedding of the client-side group-data store: the relationship
enrichment performed by `fetchGroupData`, the state transitions of `refetch`
and `updateTask`, the localStorage cache (`loadFromCache` / `saveToCache`)
and the mount effect that adopts a fresh cache entry and then refetches.

Remote reads are modelled by their responses (`Except Err _` values handed to
the pure function), the React state by an explicit `HookState`, and
`localStorage` by a `CacheState`.  The hook declares its identifiers as
`number`, so ids are `Nat`; timestamps are `Int` milliseconds.
-/

namespace GroupData

/-- A remote (Supabase) error: `message` is its `.message` field and
`isError` records whether it is an `instanceof Error`
(`refetch` branches on that when building the user-facing message). -/
structure Err where
  isError : Bool
  message : String
  deriving DecidableEq, Repr

/-- `Group` row (`schema.tsx`). -/
structure Group where
  id : Nat
  created_at : Nat
  building : String
  apt_num : String
  deriving DecidableEq, Repr

/-- `User` row (`schema.tsx`). -/
structure User where
  id : Nat
  dob : Nat
  name : String
  email : String
  created_at : Nat
  bio : String
  allergies : String
  special_needs : String
  pets : String
  group_id : Option Nat
  phone : String
  deriving DecidableEq, Repr

/-- `Image` row (`schema.tsx`). -/
structure Image where
  id : Nat
  url : String
  group_id : Nat
  user_id : Nat
  title : String
  category : String
  deriving DecidableEq, Repr

/-- `Task` row (`schema.tsx`). -/
structure Task where
  id : Nat
  name : String
  description : String
  assigned_to : Option Nat
  completed : Bool
  due_date : Nat
  created_at : Option Nat
  group_id : Option Nat
  deriving DecidableEq, Repr

/-- `assigned_tasks` junction row (`AssignedTask` in `schema.tsx`). -/
structure AssignedTask where
  task_id : Nat
  user_id : Nat
  assigned_at : Option Nat
  deriving DecidableEq, Repr

/-- `TaskWithAssignees`: a task enriched with resolved assignee `User`
objects and the raw junction user-id list. -/
structure TaskWithAssignees extends Task where
  assignees : List User
  assigned_task_ids : List Nat
  deriving DecidableEq, Repr

/-- `ImageWithCreator`: an image enriched with its resolved creator
(`null` when the creator id does not resolve). -/
structure ImageWithCreator extends Image where
  creator : Option User
  deriving DecidableEq, Repr

/-- `GroupDataStructure`: the full enriched snapshot held in state and
written to the cache. -/
structure GroupDataStructure where
  group : Option Group
  users : List User
  images : List ImageWithCreator
  tasks : List TaskWithAssignees
  assignedTasks : List AssignedTask
  deriving DecidableEq, Repr

/-- The initial (empty) snapshot, and the value `fetchGroupData` returns
when no group id is set. -/
def emptyData : GroupDataStructure :=
  { group := none, users := [], images := [], tasks := [], assignedTasks := [] }

/-- A JavaScript `Map` restricted to the operations the hook uses:
`get` is application, `set` is pointwise update (a later `set` on the same
key overwrites the earlier one, exactly as `Map.set` does). -/
def mapSet {α : Type} (m : Nat → Option α) (k : Nat) (v : α) : Nat → Option α :=
  fun x => if x = k then some v else m x

/-- `userMap`: the user-by-id index, built by
`usersData.forEach(user => userMap.set(user.id, user))`. -/
def userIndex (usersData : List User) : Nat → Option User :=
  usersData.foldl (fun m user => mapSet m user.id user) (fun _ => none)

/-- `taskAssignmentsMap`: task id → accumulated list of assigned user ids,
built by
`assignedTasksData.forEach(at => { const existing = map.get(at.task_id) || [];
map.set(at.task_id, [...existing, at.user_id]) })`. -/
def taskAssignments (assignedTasksData : List AssignedTask) : Nat → Option (List Nat) :=
  assignedTasksData.foldl
    (fun m row => mapSet m row.task_id ((m row.task_id).getD [] ++ [row.user_id]))
    (fun _ => none)

instance {ε α : Type} [DecidableEq ε] [DecidableEq α] : DecidableEq (Except ε α) := fun a b =>
  match a, b with
  | .error e, .error f =>
      if h : e = f then .isTrue (by rw [h])
      else .isFalse (by intro hh; exact h (Except.error.inj hh))
  | .error _, .ok _ => .isFalse (by intro hh; exact Except.noConfusion hh)
  | .ok _, .error _ => .isFalse (by intro hh; exact Except.noConfusion hh)
  | .ok x, .ok y =>
      if h : x = y then .isTrue (by rw [h])
      else .isFalse (by intro hh; exact h (Except.ok.inj hh))

/-- The five scoped read responses a single `fetchGroupData` run receives
from Supabase.  `.single()` on the group read reports "no row" as an error,
so that case is `groupRes = .error _`. -/
structure RemoteDB where
  groupRes : Except Err Group
  usersRes : Except Err (List User)
  imagesRes : Except Err (List Image)
  tasksRes : Except Err (List Task)
  assignedRes : Except Err (List AssignedTask)
  deriving DecidableEq, Repr

/-- The enrichment block of `fetchGroupData` (`useGroupData.ts:353-426`),
run once all reads have been resolved: builds `userMap`; enriches images
with `creator := userMap.get(image.user_id) || null`; builds
`taskAssignmentsMap`; enriches each task with its junction user-id list
and the resolved assignees (`map(get)` then `filter(!== undefined)`, i.e.
the unresolved ids are dropped); returns the structured snapshot. -/
def enrichSnapshot (groupData : Group) (usersData : List User)
    (imagesData : List Image) (tasksData : List Task)
    (assignedTasksData : List AssignedTask) : GroupDataStructure :=
  let userMap := userIndex usersData
  let imagesWithCreator : List ImageWithCreator :=
    imagesData.map (fun image => { toImage := image, creator := userMap image.user_id })
  let taskAssignmentsMap := taskAssignments assignedTasksData
  let tasksWithAssignees : List TaskWithAssignees :=
    tasksData.map (fun task =>
      let assignedUserIds := (taskAssignmentsMap task.id).getD []
      let assignees := (assignedUserIds.map userMap).reduceOption
      { toTask := task, assignees := assignees, assigned_task_ids := assignedUserIds })
  { group := some groupData
    users := usersData
    images := imagesWithCreator
    tasks := tasksWithAssignees
    assignedTasks := assignedTasksData }

/-- `fetchGroupData` (`useGroupData.ts:321-431`): sequentially performs the
group, users, images and tasks reads, throwing on the first error; skips
the junction read when there are no tasks; a junction-read error is logged
and replaced by `[]` (it does *not* throw); then enriches and returns the
snapshot. -/
def fetchGroupData (groupId : Option Nat) (db : RemoteDB) :
    Except Err GroupDataStructure :=
  match groupId with
  | none => .ok emptyData
  | some _ =>
    match db.groupRes with
    | .error e => .error e
    | .ok groupData =>
    match db.usersRes with
    | .error e => .error e
    | .ok usersData =>
    match db.imagesRes with
    | .error e => .error e
    | .ok imagesData =>
    match db.tasksRes with
    | .error e => .error e
    | .ok tasksData =>
    let taskIds := tasksData.map (fun t => t.id)
    let assignedTasksData : List AssignedTask :=
      if taskIds.length > 0 then
        match db.assignedRes with
        | .error _ => []
        | .ok assignedData => assignedData
      else []
    .ok (enrichSnapshot groupData usersData imagesData tasksData assignedTasksData)

/-- The 5-minute constant (`REFRESH_INTERVAL = 5 * 60 * 1000` ms), used both
as the cache TTL and as the auto-refresh period. -/
def REFRESH_INTERVAL : Int := 5 * 60 * 1000

/-- The hook's React state: `data`, `loading`, `error`. -/
structure HookState where
  data : GroupDataStructure
  loading : Bool
  error : Option String
  deriving DecidableEq, Repr

/-- The two localStorage slots as one value: absent, unparseable
(`JSON.parse` throws, or the timestamp is not a number), or a valid
snapshot plus its write timestamp. -/
inductive CacheState where
  | missing : CacheState
  | malformed : CacheState
  | valid : GroupDataStructure → Int → CacheState
  deriving DecidableEq, Repr

/-- `loadFromCache` (`useGroupData.ts:291-308`): returns the cached snapshot
when both slots exist, the entry parses, and `Date.now() - timestamp` is
strictly below `REFRESH_INTERVAL`; a missing slot, a stale entry, or a
parse failure (caught, logged) all yield `null`. -/
def loadFromCache (c : CacheState) (now : Int) : Option GroupDataStructure :=
  match c with
  | .missing => none
  | .malformed => none
  | .valid gd ts => if now - ts < REFRESH_INTERVAL then some gd else none

/-- `saveToCache` (`useGroupData.ts:311-318`): writes the snapshot and a
fresh timestamp; a storage failure (`writeOk = false`) is caught and
logged, leaving the previous cache content in place. -/
def saveToCache (writeOk : Bool) (c : CacheState) (gd : GroupDataStructure)
    (now : Int) : CacheState :=
  if writeOk then .valid gd now else c

/-- The message `refetch` stores on failure:
`err instanceof Error ? err.message : "Failed to load data"`. -/
def errorMessage (e : Err) : String :=
  if e.isError then e.message else "Failed to load data"

/-- `refetch` (`useGroupData.ts:434-454`): with no group id it only clears
`loading`; otherwise it sets `loading`, clears `error`, awaits
`fetchGroupData`, and on success adopts the snapshot and writes the cache,
while on failure it sets `error` to the message and leaves `data` (and the
cache) untouched; `loading` is cleared in `finally` either way. -/
def refetch (groupId : Option Nat) (db : RemoteDB) (writeOk : Bool) (now : Int)
    (st : HookState) (c : CacheState) : HookState × CacheState :=
  match groupId with
  | none => ({ st with loading := false }, c)
  | some gid =>
    match fetchGroupData (some gid) db with
    | .ok gd =>
        ({ data := gd, loading := false, error := none },
         saveToCache writeOk c gd now)
    | .error e =>
        ({ st with error := some (errorMessage e), loading := false }, c)

/-- `Partial<Task>`: each field optionally present. -/
structure TaskUpdates where
  id : Option Nat := none
  name : Option String := none
  description : Option String := none
  assigned_to : Option (Option Nat) := none
  completed : Option Bool := none
  due_date : Option Nat := none
  created_at : Option (Option Nat) := none
  group_id : Option (Option Nat) := none
  deriving DecidableEq, Repr

/-- The spread `{ ...task, ...updates }`: fields present in `updates`
overwrite the task's, all others (the enrichment fields included, which
`Partial<Task>` cannot mention) are kept. -/
def applyUpdates (t : TaskWithAssignees) (u : TaskUpdates) : TaskWithAssignees :=
  { id := u.id.getD t.id
    name := u.name.getD t.name
    description := u.description.getD t.description
    assigned_to := u.assigned_to.getD t.assigned_to
    completed := u.completed.getD t.completed
    due_date := u.due_date.getD t.due_date
    created_at := u.created_at.getD t.created_at
    group_id := u.group_id.getD t.group_id
    assignees := t.assignees
    assigned_task_ids := t.assigned_task_ids }

/-- The `setData` functional update of `updateTask`:
`tasks.map(task => task.id === taskId ? { ...task, ...updates } : task)`,
every other collection spread through unchanged. -/
def updateTaskData (taskId : Nat) (u : TaskUpdates) (gd : GroupDataStructure) :
    GroupDataStructure :=
  { gd with
    tasks := gd.tasks.map (fun task =>
      if task.id = taskId then applyUpdates task u else task) }

/-- What a finished `updateTask` call left behind: the in-memory snapshot,
the cache, and the error it threw to the caller (if any). -/
structure UpdateOutcome where
  data : GroupDataStructure
  cache : CacheState
  thrown : Option Err
  deriving DecidableEq, Repr

/-- `updateTask` (`useGroupData.ts:457-486`): awaits the remote
`update(updates).eq("id", taskId)` first; if it reports an error, throws it
(no `setData`, no cache write); otherwise applies the local merge via
`setData` and writes the merged snapshot to the cache.
`remoteErr` is the awaited remote write's reported error. -/
def updateTask (taskId : Nat) (u : TaskUpdates) (remoteErr : Option Err)
    (gd : GroupDataStructure) (writeOk : Bool) (c : CacheState) (now : Int) :
    UpdateOutcome :=
  match remoteErr with
  | some e => { data := gd, cache := c, thrown := some e }
  | none =>
    let newData := updateTaskData taskId u gd
    { data := newData
      cache := saveToCache writeOk c newData now
      thrown := none }

/-- The observable steps of one `updateTask` call, in program order. -/
inductive UpdateStep where
  | issueRemoteWrite : Nat → TaskUpdates → UpdateStep
  | applyLocalMutation : UpdateStep
  | throwToCaller : UpdateStep
  deriving DecidableEq, Repr

/-- The step sequence of `updateTask` (`useGroupData.ts:457-486`): the
remote write is issued and awaited first; only after it reports success is
the local `setData` mutation applied, and on a reported error the call
throws instead. -/
def updateTaskTrace (taskId : Nat) (u : TaskUpdates) (remoteErr : Option Err) :
    List UpdateStep :=
  [UpdateStep.issueRemoteWrite taskId u] ++
    match remoteErr with
    | some _ => [UpdateStep.throwToCaller]
    | none => [UpdateStep.applyLocalMutation]

/-- The mount / group-change effect (`useGroupData.ts:489-504`): with no
group id it only clears `loading` and fetches nothing; otherwise it adopts
a fresh cache entry (if any) as current state, and in every case triggers
`refetch` (the `Bool` result records whether `refetch` was invoked). -/
def mountEffect (groupId : Option Nat) (c : CacheState) (now : Int)
    (st : HookState) : HookState × Bool :=
  match groupId with
  | none => ({ st with loading := false }, false)
  | some _ =>
    match loadFromCache c now with
    | some gd => ({ st with data := gd, loading := false }, true)
    | none => (st, true)

/-! ## Concrete fixtures -/

/-- A sample remote error (`instanceof Error`). -/
def exErr : Err := { isError := true, message := "network down" }

def exGroup : Group := { id := 1, created_at := 0, building := "Maeser", apt_num := "101" }

def exUser1 : User :=
  { id := 1, dob := 0, name := "Ana", email := "ana@x.io", created_at := 0,
    bio := "", allergies := "", special_needs := "", pets := "",
    group_id := some 1, phone := "555" }

def exUser2 : User :=
  { id := 2, dob := 0, name := "Bo", email := "bo@x.io", created_at := 0,
    bio := "", allergies := "", special_needs := "", pets := "",
    group_id := some 1, phone := "556" }

def exTask10 : Task :=
  { id := 10, name := "dishes", description := "", assigned_to := none,
    completed := false, due_date := 5, created_at := none, group_id := some 1 }

def exImage99 : Image :=
  { id := 7, url := "u", group_id := 1, user_id := 99, title := "t", category := "c" }

/-- Responses where all four base reads succeed (one task) but the junction
read fails. -/
def dbJunctionFail : RemoteDB :=
  { groupRes := .ok exGroup
    usersRes := .ok [exUser1, exUser2]
    imagesRes := .ok []
    tasksRes := .ok [exTask10]
    assignedRes := .error exErr }

/-- Responses where every read succeeds: two users, one dangling-creator
image, one task assigned to user 1 and to an unknown user 3. -/
def dbAllOk : RemoteDB :=
  { groupRes := .ok exGroup
    usersRes := .ok [exUser1, exUser2]
    imagesRes := .ok [exImage99]
    tasksRes := .ok [exTask10]
    assignedRes := .ok [⟨10, 1, none⟩, ⟨10, 3, none⟩] }

/-- Responses for a group with zero tasks. -/
def dbNoTasks : RemoteDB :=
  { groupRes := .ok exGroup
    usersRes := .ok [exUser1]
    imagesRes := .ok []
    tasksRes := .ok []
    assignedRes := .error exErr }

/-- Snapshot holding the single enriched task 10 (not completed). -/
def exSnapshot : GroupDataStructure :=
  { group := some exGroup
    users := [exUser1, exUser2]
    images := []
    tasks := [{ toTask := exTask10, assignees := [], assigned_task_ids := [] }]
    assignedTasks := [] }

/-- `{ completed: true }`. -/
def exCompletedUpdate : TaskUpdates := { completed := some true }

/-- Hook state right after mount: empty data, loading, no error. -/
def exState : HookState := { data := emptyData, loading := true, error := none }

/-- Hook state carrying a leftover error from an earlier failed fetch. -/
def exStateWithError : HookState :=
  { data := emptyData, loading := true, error := some "old failure" }

/-- Responses where already the group read fails (e.g. no row for the id,
which `.single()` reports as an error). -/
def dbGroupFail : RemoteDB :=
  { groupRes := .error exErr
    usersRes := .ok []
    imagesRes := .ok []
    tasksRes := .ok []
    assignedRes := .ok [] }

/-! ## Characterizations of the fold-built indices -/

lemma taskAssignments_aux (l : List AssignedTask) (m : Nat → Option (List Nat))
    (tid : Nat) :
    ((l.foldl
        (fun m row => mapSet m row.task_id ((m row.task_id).getD [] ++ [row.user_id]))
        m) tid).getD []
      = (m tid).getD []
          ++ (l.filter (fun row => row.task_id == tid)).map (fun row => row.user_id) := by
  induction l generalizing m with
  | nil => simp
  | cons row rest ih =>
    rw [List.foldl_cons, ih]
    by_cases h : row.task_id = tid
    · subst h
      simp [mapSet, List.filter_cons]
    · have h2 : tid ≠ row.task_id := fun hh => h hh.symm
      simp only [mapSet, if_neg h2]
      simp [h, List.filter_cons]

/-- The junction index maps a task id to the user ids of exactly its
junction rows, in list (insertion) order. -/
lemma taskAssignments_spec (l : List AssignedTask) (tid : Nat) :
    ((taskAssignments l) tid).getD []
      = (l.filter (fun row => row.task_id == tid)).map (fun row => row.user_id) := by
  simpa [taskAssignments] using taskAssignments_aux l (fun _ => none) tid

lemma userIndex_aux (l : List User) (m : Nat → Option User) (uid : Nat)
    (h : ∀ u ∈ l, u.id ≠ uid) :
    (l.foldl (fun m user => mapSet m user.id user) m) uid = m uid := by
  induction l generalizing m with
  | nil => rfl
  | cons u rest ih =>
    rw [List.foldl_cons, ih _ (fun v hv => h v (List.mem_cons_of_mem _ hv))]
    have hu : uid ≠ u.id := fun hh => h u (List.mem_cons_self _ _) hh.symm
    simp [mapSet, hu]

/-- A user id matching no fetched user does not resolve in the index. -/
lemma userIndex_eq_none (l : List User) (uid : Nat) (h : ∀ u ∈ l, u.id ≠ uid) :
    userIndex l uid = none :=
  userIndex_aux l (fun _ => none) uid h

lemma map_update_of_no_match (taskId : Nat) (u : TaskUpdates)
    (l : List TaskWithAssignees) (h : ∀ t ∈ l, t.id ≠ taskId) :
    l.map (fun task => if task.id = taskId then applyUpdates task u else task) = l := by
  induction l with
  | nil => rfl
  | cons t rest ih =>
    rw [List.map_cons, if_neg (h t (List.mem_cons_self _ _)),
      ih (fun v hv => h v (List.mem_cons_of_mem _ hv))]

/-! ## Success and failure shapes of `fetchGroupData` -/

lemma fetchGroupData_ok_of_junction_ok (gid : Nat) (db : RemoteDB) (g0 : Group)
    (us : List User) (ims : List Image) (ts0 : List Task) (as0 : List AssignedTask)
    (hg : db.groupRes = .ok g0) (hu : db.usersRes = .ok us)
    (hi : db.imagesRes = .ok ims) (ht : db.tasksRes = .ok ts0)
    (ha : db.assignedRes = .ok as0) (hne : ts0 ≠ []) :
    fetchGroupData (some gid) db = .ok (enrichSnapshot g0 us ims ts0 as0) := by
  have hlen : (ts0.map (fun t => t.id)).length > 0 := by
    simpa [List.length_pos] using hne
  simp [fetchGroupData, hg, hu, hi, ht, ha, hlen, List.length_pos.mpr hne]

lemma fetchGroupData_ok_of_junction_error (gid : Nat) (db : RemoteDB) (g0 : Group)
    (us : List User) (ims : List Image) (ts0 : List Task) (e : Err)
    (hg : db.groupRes = .ok g0) (hu : db.usersRes = .ok us)
    (hi : db.imagesRes = .ok ims) (ht : db.tasksRes = .ok ts0)
    (ha : db.assignedRes = .error e) :
    fetchGroupData (some gid) db = .ok (enrichSnapshot g0 us ims ts0 []) := by
  by_cases hne : ts0 = []
  · subst hne
    simp [fetchGroupData, hg, hu, hi, ht]
  · have hlen : (ts0.map (fun t => t.id)).length > 0 := by
      simpa [List.length_pos] using hne
    simp [fetchGroupData, hg, hu, hi, ht, ha, hlen]

lemma fetchGroupData_ok_of_no_tasks (gid : Nat) (db : RemoteDB) (g0 : Group)
    (us : List User) (ims : List Image)
    (hg : db.groupRes = .ok g0) (hu : db.usersRes = .ok us)
    (hi : db.imagesRes = .ok ims) (ht : db.tasksRes = .ok []) :
    fetchGroupData (some gid) db = .ok (enrichSnapshot g0 us ims [] []) := by
  simp [fetchGroupData, hg, hu, hi, ht]

lemma fetchGroupData_error_group (gid : Nat) (db : RemoteDB) (e : Err)
    (hg : db.groupRes = .error e) :
    fetchGroupData (some gid) db = .error e := by
  simp [fetchGroupData, hg]

lemma fetchGroupData_error_users (gid : Nat) (db : RemoteDB) (g0 : Group) (e : Err)
    (hg : db.groupRes = .ok g0) (hu : db.usersRes = .error e) :
    fetchGroupData (some gid) db = .error e := by
  simp [fetchGroupData, hg, hu]

lemma fetchGroupData_error_images (gid : Nat) (db : RemoteDB) (g0 : Group)
    (us : List User) (e : Err)
    (hg : db.groupRes = .ok g0) (hu : db.usersRes = .ok us)
    (hi : db.imagesRes = .error e) :
    fetchGroupData (some gid) db = .error e := by
  simp [fetchGroupData, hg, hu, hi]

lemma fetchGroupData_error_tasks (gid : Nat) (db : RemoteDB) (g0 : Group)
    (us : List User) (ims : List Image) (e : Err)
    (hg : db.groupRes = .ok g0) (hu : db.usersRes = .ok us)
    (hi : db.imagesRes = .ok ims) (ht : db.tasksRes = .error e) :
    fetchGroupData (some gid) db = .error e := by
  simp [fetchGroupData, hg, hu, hi, ht]

lemma reduceOption_map_eq_filterMap {α β : Type} (l : List α) (f : α → Option β) :
    (l.map f).reduceOption = l.filterMap f := by
  simp [List.reduceOption, List.filterMap_map]

/-- The enriched form of the `i`-th task of a snapshot: the raw
`assigned_task_ids` are the junction rows for that task in junction order,
and `assignees` resolves them through the user index, dropping the
unresolved ids. -/
lemma enrichSnapshot_tasks_getElem (g0 : Group) (us : List User)
    (ims : List Image) (ts0 : List Task) (as0 : List AssignedTask)
    (i : Nat) (t : Task) (h : ts0[i]? = some t) :
    (enrichSnapshot g0 us ims ts0 as0).tasks[i]?
      = some { toTask := t
               assignees :=
                 ((as0.filter (fun row => row.task_id == t.id)).map
                     (fun row => row.user_id)).filterMap (userIndex us)
               assigned_task_ids :=
                 (as0.filter (fun row => row.task_id == t.id)).map
                   (fun row => row.user_id) } := by
  simp [enrichSnapshot, List.getElem?_map, h, taskAssignments_spec,
    reduceOption_map_eq_filterMap, List.filterMap_map]

lemma enrichSnapshot_images_getElem (g0 : Group) (us : List User)
    (ims : List Image) (ts0 : List Task) (as0 : List AssignedTask)
    (i : Nat) (img : Image) (h : ims[i]? = some img) :
    (enrichSnapshot g0 us ims ts0 as0).images[i]?
      = some { toImage := img, creator := userIndex us img.user_id } := by
  simp [enrichSnapshot, List.getElem?_map, h]

/-! ## Claim theorems -/

/-- C7: on activation with a group id, a cache entry whose age is strictly
below five minutes is adopted as current state, one aged five minutes or
more is not adopted, and in either case (indeed for every cache state) a
remote fetch is triggered afterward. -/
theorem cache_freshness (gid : Nat) (gd : GroupDataStructure) (ts now : Int)
    (st : HookState) :
    (now - ts < REFRESH_INTERVAL →
      mountEffect (some gid) (CacheState.valid gd ts) now st
        = ({ st with data := gd, loading := false }, true)) ∧
    (REFRESH_INTERVAL ≤ now - ts →
      mountEffect (some gid) (CacheState.valid gd ts) now st = (st, true)) ∧
    (∀ c : CacheState, (mountEffect (some gid) c now st).2 = true) := by
  refine ⟨fun h => ?_, fun h => ?_, fun c => ?_⟩
  · simp [mountEffect, loadFromCache, h]
  · simp [mountEffect, loadFromCache, not_lt.mpr h]
  · cases c with
    | missing => rfl
    | malformed => rfl
    | valid gd2 ts2 =>
        by_cases h : now - ts2 < REFRESH_INTERVAL <;>
          simp [mountEffect, loadFromCache, h]

/-- C7 witness: a 4 min 59.999 s old entry is adopted; a 5 min 0 s old
entry is not; the fetch fires in both runs. -/
theorem cache_freshness_witness :
    mountEffect (some 1) (CacheState.valid exSnapshot 0) 299999 exState
        = ({ exState with data := exSnapshot, loading := false }, true) ∧
    mountEffect (some 1) (CacheState.valid exSnapshot 0) 300000 exState
        = (exState, true) :=
  ⟨(cache_freshness 1 exSnapshot 0 299999 exState).1 (by decide),
   (cache_freshness 1 exSnapshot 0 300000 exState).2.1 (by decide)⟩

/-- C8: a malformed cache entry behaves exactly like a cache miss — state
untouched, no error surfaced, the remote fetch still fires — and a cache
write failure changes neither `refetch`'s resulting hook state nor
`updateTask`'s resulting snapshot or thrown error. -/
theorem cache_failures_swallowed (gid : Nat) (now writeTime : Int)
    (st : HookState) (db : RemoteDB) (c : CacheState) (gd : GroupDataStructure)
    (taskId : Nat) (u : TaskUpdates) (r : Option Err) :
    mountEffect (some gid) CacheState.malformed now st
        = mountEffect (some gid) CacheState.missing now st ∧
    mountEffect (some gid) CacheState.malformed now st = (st, true) ∧
    (refetch (some gid) db false writeTime st c).1
        = (refetch (some gid) db true writeTime st c).1 ∧
    (updateTask taskId u r gd false c now).data
        = (updateTask taskId u r gd true c now).data ∧
    (updateTask taskId u r gd false c now).thrown
        = (updateTask taskId u r gd true c now).thrown := by
  refine ⟨rfl, rfl, ?_, ?_, ?_⟩
  · cases h : fetchGroupData (some gid) db <;> simp [refetch, h]
  · cases r <;> simp [updateTask]
  · cases r <;> simp [updateTask]

/-- C9: with zero tasks the junction read is never consulted (the fetch
result is the same whatever its response would have been), and the fetch
succeeds with `tasks = []` and `assignedTasks = []`. -/
theorem zero_tasks_skips_junction (gid : Nat) (db : RemoteDB) (g0 : Group)
    (us : List User) (ims : List Image)
    (hg : db.groupRes = .ok g0) (hu : db.usersRes = .ok us)
    (hi : db.imagesRes = .ok ims) (ht : db.tasksRes = .ok []) :
    (∀ aRes aRes',
      fetchGroupData (some gid) { db with assignedRes := aRes }
        = fetchGroupData (some gid) { db with assignedRes := aRes' }) ∧
    fetchGroupData (some gid) db = .ok (enrichSnapshot g0 us ims [] []) ∧
    (enrichSnapshot g0 us ims [] []).tasks = [] ∧
    (enrichSnapshot g0 us ims [] []).assignedTasks = [] := by
  refine ⟨fun aRes aRes' => ?_, fetchGroupData_ok_of_no_tasks gid db g0 us ims hg hu hi ht,
    rfl, rfl⟩
  rw [fetchGroupData_ok_of_no_tasks gid { db with assignedRes := aRes } g0 us ims hg hu hi ht,
    fetchGroupData_ok_of_no_tasks gid { db with assignedRes := aRes' } g0 us ims hg hu hi ht]

/-- C9 witness: `dbNoTasks` (whose junction response is even an error)
fetches successfully with empty `tasks` and `assignedTasks`. -/
theorem zero_tasks_skips_junction_witness :
    fetchGroupData (some 1) dbNoTasks = .ok (enrichSnapshot exGroup [exUser1] [] [] []) ∧
    (enrichSnapshot exGroup [exUser1] [] [] []).tasks = [] ∧
    (enrichSnapshot exGroup [exUser1] [] [] []).assignedTasks = [] :=
  ⟨(zero_tasks_skips_junction 1 dbNoTasks exGroup [exUser1] [] rfl rfl rfl rfl).2.1,
   (zero_tasks_skips_junction 1 dbNoTasks exGroup [exUser1] [] rfl rfl rfl rfl).2.2.1,
   (zero_tasks_skips_junction 1 dbNoTasks exGroup [exUser1] [] rfl rfl rfl rfl).2.2.2⟩

/-- C6: an image whose creator id resolves to no fetched user is enriched
with `creator = none`, and the dangling reference neither throws nor fails
the fetch (the fetch still returns `.ok`). -/
theorem dangling_creator_null (gid : Nat) (db : RemoteDB) (g0 : Group)
    (us : List User) (ims : List Image) (ts0 : List Task)
    (as0 : List AssignedTask)
    (hg : db.groupRes = .ok g0) (hu : db.usersRes = .ok us)
    (hi : db.imagesRes = .ok ims) (ht : db.tasksRes = .ok ts0)
    (ha : db.assignedRes = .ok as0) (hne : ts0 ≠ []) :
    fetchGroupData (some gid) db = .ok (enrichSnapshot g0 us ims ts0 as0) ∧
    ∀ (i : Nat) (img : Image), ims[i]? = some img → (∀ u ∈ us, u.id ≠ img.user_id) →
      (enrichSnapshot g0 us ims ts0 as0).images[i]?
        = some { toImage := img, creator := none } := by
  refine ⟨fetchGroupData_ok_of_junction_ok gid db g0 us ims ts0 as0 hg hu hi ht ha hne,
    fun i img h hd => ?_⟩
  rw [enrichSnapshot_images_getElem g0 us ims ts0 as0 i img h,
    userIndex_eq_none us img.user_id hd]

/-- C6 witness: in `dbAllOk` the image's creator id 99 matches no user;
its enriched form has `creator = none` and the fetch returned `.ok`. -/
theorem dangling_creator_null_witness :
    fetchGroupData (some 1) dbAllOk
      = .ok (enrichSnapshot exGroup [exUser1, exUser2] [exImage99] [exTask10]
          [⟨10, 1, none⟩, ⟨10, 3, none⟩]) ∧
    (enrichSnapshot exGroup [exUser1, exUser2] [exImage99] [exTask10]
        [⟨10, 1, none⟩, ⟨10, 3, none⟩]).images[0]?
      = some { toImage := exImage99, creator := none } :=
  ⟨(dangling_creator_null 1 dbAllOk exGroup [exUser1, exUser2] [exImage99]
      [exTask10] [⟨10, 1, none⟩, ⟨10, 3, none⟩] rfl rfl rfl rfl rfl
      (by decide)).1,
   (dangling_creator_null 1 dbAllOk exGroup [exUser1, exUser2] [exImage99]
      [exTask10] [⟨10, 1, none⟩, ⟨10, 3, none⟩] rfl rfl rfl rfl rfl
      (by decide)).2 0 exImage99 rfl (by decide)⟩

/-- C4: every fetched task appears enriched (none omitted, count
preserved); its `assigned_task_ids` is the full raw junction user-id list
for that task in junction order, unresolved ids included; its `assignees`
resolves that list through the user index in the same order, silently
dropping unresolved ids; a task with no junction rows gets `[]` for
both. -/
theorem task_enrichment (gid : Nat) (db : RemoteDB) (g0 : Group)
    (us : List User) (ims : List Image) (ts0 : List Task)
    (as0 : List AssignedTask)
    (hg : db.groupRes = .ok g0) (hu : db.usersRes = .ok us)
    (hi : db.imagesRes = .ok ims) (ht : db.tasksRes = .ok ts0)
    (ha : db.assignedRes = .ok as0) (hne : ts0 ≠ []) :
    fetchGroupData (some gid) db = .ok (enrichSnapshot g0 us ims ts0 as0) ∧
    (enrichSnapshot g0 us ims ts0 as0).tasks.length = ts0.length ∧
    (∀ (i : Nat) (t : Task), ts0[i]? = some t →
      (enrichSnapshot g0 us ims ts0 as0).tasks[i]?
        = some { toTask := t
                 assignees :=
                   ((as0.filter (fun row => row.task_id == t.id)).map
                       (fun row => row.user_id)).filterMap (userIndex us)
                 assigned_task_ids :=
                   (as0.filter (fun row => row.task_id == t.id)).map
                     (fun row => row.user_id) }) ∧
    (∀ (i : Nat) (t : Task), ts0[i]? = some t → (∀ row ∈ as0, row.task_id ≠ t.id) →
      (enrichSnapshot g0 us ims ts0 as0).tasks[i]?
        = some { toTask := t, assignees := [], assigned_task_ids := [] }) := by
  refine ⟨fetchGroupData_ok_of_junction_ok gid db g0 us ims ts0 as0 hg hu hi ht ha hne,
    by simp [enrichSnapshot], fun i t h => enrichSnapshot_tasks_getElem g0 us ims ts0 as0 i t h,
    fun i t h hnone => ?_⟩
  have hfil : as0.filter (fun row => row.task_id == t.id) = [] := by
    rw [List.filter_eq_nil_iff]
    intro row hr
    simpa using hnone row hr
  rw [enrichSnapshot_tasks_getElem g0 us ims ts0 as0 i t h, hfil]
  rfl

/-- C4 witness: in `dbAllOk`, task 10 has junction rows for users 1 and 3;
user 3 is unknown, so `assignees = [user 1]` while
`assigned_task_ids = [1, 3]`. -/
theorem task_enrichment_witness :
    (enrichSnapshot exGroup [exUser1, exUser2] [exImage99] [exTask10]
        [⟨10, 1, none⟩, ⟨10, 3, none⟩]).tasks[0]?
      = some { toTask := exTask10, assignees := [exUser1],
               assigned_task_ids := [1, 3] } :=
  ((task_enrichment 1 dbAllOk exGroup [exUser1, exUser2] [exImage99]
      [exTask10] [⟨10, 1, none⟩, ⟨10, 3, none⟩] rfl rfl rfl rfl rfl
      (by decide)).2.2.1 0 exTask10 rfl).trans (by decide)

/-- C10: the remote write is the first step of every `updateTask` call
(issued whether or not the id matches a task); when it succeeds and no
task matches, the snapshot is left entirely unchanged and nothing is
thrown; when a task matches, exactly the fields listed in the update
change on exactly that task, every other task and every other collection
staying as it was. -/
theorem update_task_frame (taskId : Nat) (u : TaskUpdates)
    (gd : GroupDataStructure) (writeOk : Bool) (c : CacheState) (now : Int) :
    ((updateTaskTrace taskId u none).head?
        = some (UpdateStep.issueRemoteWrite taskId u) ∧
     (updateTaskTrace taskId u (some exErr)).head?
        = some (UpdateStep.issueRemoteWrite taskId u)) ∧
    (updateTask taskId u none gd writeOk c now).thrown = none ∧
    ((∀ t ∈ gd.tasks, t.id ≠ taskId) →
      (updateTask taskId u none gd writeOk c now).data = gd) ∧
    (updateTask taskId u none gd writeOk c now).data.group = gd.group ∧
    (updateTask taskId u none gd writeOk c now).data.users = gd.users ∧
    (updateTask taskId u none gd writeOk c now).data.images = gd.images ∧
    (updateTask taskId u none gd writeOk c now).data.assignedTasks
        = gd.assignedTasks ∧
    (updateTask taskId u none gd writeOk c now).data.tasks.length
        = gd.tasks.length ∧
    (∀ (i : Nat) (t : TaskWithAssignees), gd.tasks[i]? = some t →
      (updateTask taskId u none gd writeOk c now).data.tasks[i]?
        = some (if t.id = taskId then applyUpdates t u else t)) ∧
    (∀ t : TaskWithAssignees,
      (applyUpdates t u).assignees = t.assignees ∧
      (applyUpdates t u).assigned_task_ids = t.assigned_task_ids ∧
      (u.completed = none → (applyUpdates t u).completed = t.completed) ∧
      (∀ b, u.completed = some b → (applyUpdates t u).completed = b) ∧
      (u.name = none → (applyUpdates t u).name = t.name) ∧
      (u.description = none → (applyUpdates t u).description = t.description) ∧
      (u.assigned_to = none → (applyUpdates t u).assigned_to = t.assigned_to) ∧
      (u.due_date = none → (applyUpdates t u).due_date = t.due_date) ∧
      (u.id = none → (applyUpdates t u).id = t.id) ∧
      (u.created_at = none → (applyUpdates t u).created_at = t.created_at) ∧
      (u.group_id = none → (applyUpdates t u).group_id = t.group_id)) := by
  refine ⟨⟨rfl, rfl⟩, rfl, fun h => ?_, rfl, rfl, rfl, rfl, ?_, fun i t ht => ?_, fun t => ?_⟩
  · simp [updateTask, updateTaskData, map_update_of_no_match taskId u gd.tasks h]
  · simp [updateTask, updateTaskData]
  · simp [updateTask, updateTaskData, List.getElem?_map, ht]
  · refine ⟨rfl, rfl, fun h => ?_, fun b h => ?_, fun h => ?_, fun h => ?_,
      fun h => ?_, fun h => ?_, fun h => ?_, fun h => ?_, fun h => ?_⟩ <;>
      simp [applyUpdates, h]

/-- C10 witness: on `exSnapshot`, updating the absent id 99 leaves the
snapshot unchanged and throws nothing, while updating the present id 10
flips exactly that task's `completed` field. -/
theorem update_task_frame_witness :
    (updateTask 99 exCompletedUpdate none exSnapshot true CacheState.missing 5).data
        = exSnapshot ∧
    (updateTask 99 exCompletedUpdate none exSnapshot true CacheState.missing 5).thrown
        = none ∧
    (updateTask 10 exCompletedUpdate none exSnapshot true CacheState.missing 5).data.tasks[0]?
        = some { toTask := { exTask10 with completed := true },
                 assignees := [], assigned_task_ids := [] } :=
  ⟨(update_task_frame 99 exCompletedUpdate exSnapshot true CacheState.missing 5).2.2.1
      (by decide),
   (update_task_frame 99 exCompletedUpdate exSnapshot true CacheState.missing 5).2.1,
   ((update_task_frame 10 exCompletedUpdate exSnapshot true CacheState.missing 5).2.2.2.2.2.2.2.2.1
      0 { toTask := exTask10, assignees := [], assigned_task_ids := [] } rfl).trans
      (by decide)⟩

/-- C2: the spec and the repository docs say the optimistic local mutation
precedes the remote write; in the code the remote write is issued and
awaited *first*, and the local mutation runs only after it reports
success — at the failing input (remote error on `{completed: true}` for
task 10) no local mutation ever happens and the snapshot still shows
`completed = false`. -/
theorem update_order_remote_first :
    updateTaskTrace 10 exCompletedUpdate (some exErr)
      = [UpdateStep.issueRemoteWrite 10 exCompletedUpdate,
         UpdateStep.throwToCaller] ∧
    UpdateStep.applyLocalMutation ∉ updateTaskTrace 10 exCompletedUpdate (some exErr) ∧
    updateTaskTrace 10 exCompletedUpdate none
      = [UpdateStep.issueRemoteWrite 10 exCompletedUpdate,
         UpdateStep.applyLocalMutation] ∧
    (updateTask 10 exCompletedUpdate (some exErr) exSnapshot true
        CacheState.missing 5).data = exSnapshot ∧
    (exSnapshot.tasks.map (fun t => t.completed)) = [false] := by
  refine ⟨rfl, by decide, rfl, rfl, by decide⟩

/-- C3 counterexample: the claim says that after a failed remote write the
in-memory optimistic change "remains applied"; in the code the failed call
throws and task 10's `completed` field is still `false` — there is no
applied change at all. -/
theorem update_failure_counterexample :
    (updateTask 10 exCompletedUpdate (some exErr) exSnapshot true
        CacheState.missing 5).thrown = some exErr ∧
    ¬ ((updateTask 10 exCompletedUpdate (some exErr) exSnapshot true
        CacheState.missing 5).data.tasks.map (fun t => t.completed) = [true]) ∧
    (updateTask 10 exCompletedUpdate (some exErr) exSnapshot true
        CacheState.missing 5).data = exSnapshot := by
  refine ⟨rfl, by decide, rfl⟩

/-- C3 amended: when the remote write fails, the error is thrown to the
caller and the snapshot and cache are left exactly as they were — the
local mutation is applied only after a successful remote write, so on
failure there is no optimistic change to roll back and the caller must
refetch or re-issue to reconcile. -/
theorem update_failure_no_mutation (taskId : Nat) (u : TaskUpdates) (e : Err)
    (gd : GroupDataStructure) (writeOk : Bool) (c : CacheState) (now : Int) :
    updateTask taskId u (some e) gd writeOk c now
      = { data := gd, cache := c, thrown := some e } := rfl

/-- C1 counterexample: with all four base reads succeeding and the junction
read failing (`dbJunctionFail`), the fetch does *not* report failure — it
returns `.ok` with an empty junction set — and a `refetch` against it
replaces the prior snapshot instead of leaving it unchanged. -/
theorem junction_failure_counterexample :
    fetchGroupData (some 1) dbJunctionFail
      = .ok (enrichSnapshot exGroup [exUser1, exUser2] [] [exTask10] []) ∧
    (refetch (some 1) dbJunctionFail true 5 exState CacheState.missing).1.error
      = none ∧
    (refetch (some 1) dbJunctionFail true 5 exState CacheState.missing).1.data
      = enrichSnapshot exGroup [exUser1, exUser2] [] [exTask10] [] ∧
    ¬ ((refetch (some 1) dbJunctionFail true 5 exState CacheState.missing).1.data
          = exState.data) := by
  refine ⟨by decide, by decide, by decide, by decide⟩

/-- C1 amended: failure of any of the group, users, images or tasks reads
aborts the whole fetch (the error propagates and `refetch` keeps the prior
snapshot); a junction-read failure alone does *not* abort — it is logged
and replaced by an empty junction set, and the fetch succeeds with the
tasks enriched against no assignments. -/
theorem fetch_abort_policy (gid : Nat) (db : RemoteDB) (e : Err) (g0 : Group)
    (us : List User) (ims : List Image) (ts0 : List Task) :
    (db.groupRes = .error e → fetchGroupData (some gid) db = .error e) ∧
    (db.groupRes = .ok g0 → db.usersRes = .error e →
      fetchGroupData (some gid) db = .error e) ∧
    (db.groupRes = .ok g0 → db.usersRes = .ok us → db.imagesRes = .error e →
      fetchGroupData (some gid) db = .error e) ∧
    (db.groupRes = .ok g0 → db.usersRes = .ok us → db.imagesRes = .ok ims →
      db.tasksRes = .error e → fetchGroupData (some gid) db = .error e) ∧
    (db.groupRes = .ok g0 → db.usersRes = .ok us → db.imagesRes = .ok ims →
      db.tasksRes = .ok ts0 → db.assignedRes = .error e →
      fetchGroupData (some gid) db = .ok (enrichSnapshot g0 us ims ts0 [])) ∧
    (∀ (st : HookState) (c : CacheState) (writeOk : Bool) (now : Int),
      fetchGroupData (some gid) db = .error e →
        (refetch (some gid) db writeOk now st c).1.data = st.data) := by
  refine ⟨fun hg => fetchGroupData_error_group gid db e hg,
    fun hg hu => fetchGroupData_error_users gid db g0 e hg hu,
    fun hg hu hi => fetchGroupData_error_images gid db g0 us e hg hu hi,
    fun hg hu hi ht => fetchGroupData_error_tasks gid db g0 us ims e hg hu hi ht,
    fun hg hu hi ht ha =>
      fetchGroupData_ok_of_junction_error gid db g0 us ims ts0 e hg hu hi ht ha,
    fun st c writeOk now hf => ?_⟩
  simp [refetch, hf]

/-- C1 amended witness: a failing group read aborts the fetch and `refetch`
keeps the prior snapshot; a failing junction read yields a successful
fetch with an empty junction set. -/
theorem fetch_abort_policy_witness :
    fetchGroupData (some 1) dbGroupFail = .error exErr ∧
    (refetch (some 1) dbGroupFail true 5 exState CacheState.missing).1.data
      = exState.data ∧
    fetchGroupData (some 1) dbJunctionFail
      = .ok (enrichSnapshot exGroup [exUser1, exUser2] [] [exTask10] []) :=
  ⟨(fetch_abort_policy 1 dbGroupFail exErr exGroup [] [] []).1 rfl,
   (fetch_abort_policy 1 dbGroupFail exErr exGroup [] [] []).2.2.2.2.2
     exState CacheState.missing true 5
     ((fetch_abort_policy 1 dbGroupFail exErr exGroup [] [] []).1 rfl),
   (fetch_abort_policy 1 dbJunctionFail exErr exGroup [exUser1, exUser2] []
     [exTask10]).2.2.2.2.1 rfl rfl rfl rfl rfl⟩

/-- C5 counterexample: the claim covers "any read" failing, but when only
the junction read fails (`dbJunctionFail`), `refetch` does not preserve the
snapshot with an error — it adopts the new snapshot, clears a pre-existing
error, and clears loading. -/
theorem refetch_junction_counterexample :
    (refetch (some 1) dbJunctionFail true 7 exStateWithError CacheState.missing).1
      = { data := enrichSnapshot exGroup [exUser1, exUser2] [] [exTask10] []
          loading := false
          error := none } ∧
    ¬ ((refetch (some 1) dbJunctionFail true 7 exStateWithError CacheState.missing).1.data
          = exStateWithError.data) ∧
    ¬ ((refetch (some 1) dbJunctionFail true 7 exStateWithError CacheState.missing).1.error
          = some (errorMessage exErr)) := by
  refine ⟨by decide, by decide, by decide⟩

/-- C5 amended: if any of the group (no row included), users, images or
tasks reads fails, `refetch` preserves the prior snapshot, sets `error` to
the human-readable message and clears `loading`; when `fetchGroupData`
returns a snapshot (which it also does when only the junction read fails),
`refetch` replaces the whole snapshot, clears any prior error and clears
`loading`. -/
theorem refetch_state_transition (gid : Nat) (db : RemoteDB) (writeOk : Bool)
    (now : Int) (st : HookState) (c : CacheState) (e : Err)
    (gd : GroupDataStructure) (g0 : Group) (us : List User) (ims : List Image)
    (ts0 : List Task) :
    (fetchGroupData (some gid) db = .error e →
      (refetch (some gid) db writeOk now st c).1
        = { st with error := some (errorMessage e), loading := false } ∧
      (refetch (some gid) db writeOk now st c).2 = c) ∧
    (fetchGroupData (some gid) db = .ok gd →
      (refetch (some gid) db writeOk now st c).1
        = { data := gd, loading := false, error := none }) ∧
    (db.groupRes = .error e → fetchGroupData (some gid) db = .error e) ∧
    (db.groupRes = .ok g0 → db.usersRes = .ok us → db.imagesRes = .ok ims →
      db.tasksRes = .ok ts0 → db.assignedRes = .error e →
      fetchGroupData (some gid) db = .ok (enrichSnapshot g0 us ims ts0 [])) := by
  refine ⟨fun hf => ⟨?_, ?_⟩, fun hf => ?_,
    fun hg => fetchGroupData_error_group gid db e hg,
    fun hg hu hi ht ha =>
      fetchGroupData_ok_of_junction_error gid db g0 us ims ts0 e hg hu hi ht ha⟩
  · simp [refetch, hf]
  · simp [refetch, hf]
  · simp [refetch, hf]

/-- C5 amended witness: a failing group read preserves the snapshot and
sets the error message; a run against `dbAllOk` replaces the snapshot and
clears the leftover error. -/
theorem refetch_state_transition_witness :
    (refetch (some 1) dbGroupFail true 5 exStateWithError CacheState.missing).1
      = { exStateWithError with error := some (errorMessage exErr), loading := false } ∧
    (refetch (some 1) dbAllOk true 5 exStateWithError CacheState.missing).1
      = { data := enrichSnapshot exGroup [exUser1, exUser2] [exImage99] [exTask10]
            [⟨10, 1, none⟩, ⟨10, 3, none⟩]
          loading := false
          error := none } :=
  ⟨((refetch_state_transition 1 dbGroupFail true 5 exStateWithError
      CacheState.missing exErr emptyData exGroup [] [] []).1 (by decide)).1,
   (refetch_state_transition 1 dbAllOk true 5 exStateWithError
      CacheState.missing exErr
      (enrichSnapshot exGroup [exUser1, exUser2] [exImage99] [exTask10]
        [⟨10, 1, none⟩, ⟨10, 3, none⟩])
      exGroup [] [] []).2.1 (by decide)⟩

end GroupData
